import Mathlib

/-!
Shallow embedding of the authentication / social-graph core of
`sawirricardo/realworld-go` (src/main.go), together with proofs settling
the frozen claims about it.

Modelling conventions:
* Machine integers (`uint64`, unix timestamps) are `Nat` / `Int`; none of
  the modelled code paths can overflow them.
* The gorm database is a list of rows kept in primary-key order, so
  gorm's `First` is `List.find?` followed by the Go zero value when no
  row matches (gorm leaves the destination untouched on
  `ErrRecordNotFound`, and the source ignores that error).
* External cryptographic primitives (bcrypt comparison, JWT
  encoding/decoding of the wire string) are parameters of the handlers
  that call them; a JWT signature is modelled by recording which secret a
  token was signed with, so signature verification is equality of
  secrets.
* Writing a JSON response with `c.JSON` appends to the list of emitted
  responses; a Go `panic` (index out of range, nil dereference,
  `panic(...)`) is a distinguished outcome constructor, since gin aborts
  the handler there.
-/

/-- `strings.Split(s, sep)` for a one-character separator, as in Go:
`Split("", " ") = [""]`, and a string with no separator yields the
one-element list holding the whole string.  Worker on the character
list; `acc` is the current field, reversed. -/
def goSplitAux (sep : Char) : List Char → List Char → List (List Char)
  | [], acc => [acc.reverse]
  | c :: rest, acc =>
    if c = sep then acc.reverse :: goSplitAux sep rest []
    else goSplitAux sep rest (c :: acc)

/-- Go `strings.Split` with a one-character separator (src/main.go line
360 uses `strings.Split(tokenString, " ")`). -/
def goSplit (sep : Char) (s : String) : List String :=
  (goSplitAux sep s.toList []).map fun cs => String.mk cs

/-- The `User` table row (src/main.go lines 76-86).  The timestamp
columns (`EmailVerifiedAt`, `CreatedAt`, `UpdatedAt`) are never read by
any modelled handler and are omitted. -/
structure User where
  id : Nat
  username : String
  email : String
  password : String
  bio : String
  image : String
deriving Repr, DecidableEq

/-- The Go zero value of `User`, which gorm's `First` leaves in place
when no row matches. -/
def zeroUser : User :=
  { id := 0, username := "", email := "", password := "", bio := "", image := "" }

/-- The JWT signing algorithms relevant to this development.  `HS256` is
the one `CreateToken` uses and the one `authApi`'s key function pins. -/
inductive Alg
  | HS256
  | HS512
  | RS256
deriving Repr, DecidableEq

/-- Printable name of an algorithm, as it appears in
`token.Header["alg"]`. -/
def algName : Alg → String
  | .HS256 => "HS256"
  | .HS512 => "HS512"
  | .RS256 => "RS256"

/-- The claim set `CreateToken` builds (src/main.go lines 279-282): the
`jwt.MapClaims` map holds exactly the keys `authorized`, `user_id` and
`exp`. -/
structure Claims where
  authorized : Bool
  user_id : Nat
  exp : Int
deriving Repr, DecidableEq

/-- A signed token.  The signature of an HMAC JWT is determined by the
algorithm, the payload and the signing key, so the model records the key
the token was signed with; verification against secret `s` succeeds
exactly when `secretUsed = s`. -/
structure SignedToken where
  alg : Alg
  claims : Claims
  secretUsed : String
deriving Repr, DecidableEq

/-- `Token.SignedString` of jwt-go: signing fails only when the key is
unusable for the method.  `CreateToken` always passes a `[]byte` key
(any contents, even empty), which `SigningMethodHMAC.Sign` always
accepts, so the error branch is unreachable for this caller. -/
def signedString (alg : Alg) (claims : Claims) (secret : String) :
    Except String SignedToken :=
  .ok { alg := alg, claims := claims, secretUsed := secret }

/-- `CreateToken` (src/main.go lines 276-289): builds the claims map
`{authorized: true, user_id: userid, exp: now + 15 minutes}` and signs
it with `jwt.SigningMethodHS256` and the configured secret. -/
def CreateToken (userid : Nat) (now : Int) (secret : String) :
    Except String SignedToken :=
  signedString .HS256 { authorized := true, user_id := userid, exp := now + 15 * 60 } secret

/-- The token object `jwt.ParseWithClaims` returns: header algorithm,
parsed claims, and the `Valid` flag. -/
structure ParsedToken where
  alg : Alg
  claims : Claims
  valid : Bool
deriving Repr, DecidableEq

/-- The classified validation errors of jwt-go as exercised by `authApi`:
segment/decoding failure, key-function rejection of the algorithm,
expired claims, signature mismatch. -/
inductive ParseError
  | malformed
  | wrongAlgorithm (a : Alg)
  | expired
  | badSignature
deriving Repr, DecidableEq

/-- The `err.Error()` text of each validation error, mirroring jwt-go
v3.2.0 (the expiry message abstracts away the `by <delta>` suffix). -/
def errorText : ParseError → String
  | .malformed => "token contains an invalid number of segments"
  | .wrongAlgorithm a => "Unexpected signing method: " ++ algName a
  | .expired => "Token is expired"
  | .badSignature => "signature is invalid"

/-- `jwt.ParseWithClaims(ts, &MyCustomClaims{}, keyfunc)` with `authApi`'s
key function (src/main.go lines 362-368), for signing secret `secret` at
time `now`.  Mirrors jwt-go v3.2.0 `Parser.ParseWithClaims`:
* a string that does not decode to a token (e.g. not three dot-separated
  segments) returns a nil token and a malformed error;
* otherwise the key function runs first and rejects any header algorithm
  other than HS256 (`"Unexpected signing method"`), leaving the token
  invalid;
* then the claims are validated: `StandardClaims.Valid` fails when
  `exp < now`;
* then the signature is verified against the configured secret;
* only when all checks pass is `token.Valid` set, with a nil error.
`decode` is the wire decoding of the token string, a parameter of the
model. -/
def parseWithClaims (decode : String → Option SignedToken)
    (ts secret : String) (now : Int) :
    Option ParsedToken × Option ParseError :=
  match decode ts with
  | none => (none, some .malformed)
  | some tok =>
    if tok.alg ≠ Alg.HS256 then
      (some { alg := tok.alg, claims := tok.claims, valid := false },
       some (.wrongAlgorithm tok.alg))
    else if tok.claims.exp < now then
      (some { alg := tok.alg, claims := tok.claims, valid := false }, some .expired)
    else if tok.secretUsed ≠ secret then
      (some { alg := tok.alg, claims := tok.claims, valid := false }, some .badSignature)
    else
      (some { alg := tok.alg, claims := tok.claims, valid := true }, none)

/-- `token.Valid` read through the nil check: a nil token is not valid. -/
def parsedValid : Option ParsedToken → Bool
  | none => false
  | some t => t.valid

/-- The JSON body `authApi` writes on its failure branch
(src/main.go lines 371-374): status 401 with `message` and `error`
fields. -/
structure AuthResp where
  status : Nat
  message : String
  error : String
deriving Repr, DecidableEq

/-- Outcome of `authApi`: Go panics are distinguished constructors.
`panicIndexOutOfRange` is `bearerToken[1]` on a slice of length < 2;
`panicNilErr` is `err.Error()` evaluated when `err` is nil (the guard
`err == nil` put the success case into the failure branch).
`returned` carries the returned `*jwt.Token` and the error response
written, if any. -/
inductive AuthApiResult
  | panicIndexOutOfRange
  | panicNilErr (tok : Option ParsedToken)
  | returned (tok : Option ParsedToken) (resp : Option AuthResp)
deriving Repr, DecidableEq

/-- `authApi` (src/main.go lines 354-378): reads the Authorization
header, splits it on spaces, indexes part 1 without a length check
(panic when the header has fewer than two space-separated parts; the
first part is never compared against `Bearer`), parses the token, and
then tests `token == nil || err == nil || !token.Valid` — note
`err == nil`, so a successfully validated token enters the failure
branch, where `err.Error()` dereferences the nil error. -/
def authApi (decode : String → Option SignedToken) (secret : String)
    (now : Int) (authHeader : String) : AuthApiResult :=
  let bearerToken := goSplit ' ' authHeader
  match bearerToken[1]? with
  | none => .panicIndexOutOfRange
  | some ts =>
    let pr := parseWithClaims decode ts secret now
    if pr.1.isNone || pr.2.isNone || !parsedValid pr.1 then
      match pr.2 with
      | none => .panicNilErr pr.1
      | some e =>
        .returned pr.1 (some { status := 401, message := "not authorized", error := errorText e })
    else
      .returned pr.1 none

/-- A response emitted by `loginUser`: the 401 body written on
verification failure (src/main.go lines 255-258), or the 200 user
resource (lines 265-273) whose `token` field carries the freshly signed
token. -/
inductive LoginResp
  | loginFail (status : Nat) (message : String)
  | userOk (username email bio image : String) (token : SignedToken)
deriving Repr, DecidableEq

/-- Outcome of `loginUser`: either a `panic(...)` aborted the handler or
it ran to completion, emitting `responses` in order. -/
inductive LoginOutcome
  | panicked (msg : String)
  | responses (rs : List LoginResp)
deriving Repr, DecidableEq

/-- The bound login payload (src/main.go lines 92-95). -/
structure LoginUser where
  email : String
  password : String
deriving Repr, DecidableEq

/-- `loginUser` (src/main.go lines 245-274).  `verify` is
`bcrypt.CompareHashAndPassword` as a boolean (`true` when the comparison
returns a nil error); `req` is `none` when `BindJSON` fails, which the
source turns into `panic("Wrong data")`.  The user row is looked up by
email, falling back to the zero value.  On verification failure the 401
body is written but the function does NOT return: it falls through,
calls `CreateToken(user.ID)` and writes the 200 user resource as
well. -/
def loginUser (verify : String → String → Bool) (secret : String)
    (now : Int) (users : List User) (req : Option LoginUser) : LoginOutcome :=
  match req with
  | none => .panicked "Wrong data"
  | some lr =>
    let user := (users.find? fun u => u.email == lr.email).getD zeroUser
    let failResps : List LoginResp :=
      if verify user.password lr.password then []
      else [.loginFail 401 "wrong username or password"]
    match CreateToken user.id now secret with
    | .error _ => .panicked "Server error"
    | .ok token =>
      .responses (failResps ++ [.userOk user.username user.email user.bio user.image token])

/-- The `Profile` response shape (src/main.go lines 105-110). -/
structure Profile where
  username : String
  bio : String
  image : String
  following : Bool
deriving Repr, DecidableEq

/-- `Follow.exists viewer subject` over the `followers(user_id,
follower_id)` join table: the row `(subject, viewer)` records that
`viewer` follows `subject`. -/
def followExists (viewer subject : Nat) (followers : List (Nat × Nat)) : Bool :=
  followers.any fun p => p.1 == subject && p.2 == viewer

/-- `showProfile` (src/main.go lines 309-318): looks the user up by the
`username` route parameter and builds the `Profile` literal
`{Username, Bio, Image}` — the `Following` field is never assigned, so
it keeps its zero value `false`.  The route installs no authorization
middleware and the handler never reads the Authorization header or the
followers table, so no viewer influences the result. -/
def showProfile (users : List User) (username : String) : Profile :=
  let user := (users.find? fun u => u.username == username).getD zeroUser
  { username := user.username, bio := user.bio, image := user.image, following := false }

/-- A response emitted by `unfollowProfile`: the `{"token": ...}` body,
the 401 body written inside `authApi`, or the 402 `{"error":
"Unathorized"}` body (the typo is the source's, line 337). -/
inductive HResp
  | authResp (r : AuthResp)
  | tokenJson (tok : Option ParsedToken)
  | countError (status : Nat) (error : String)
deriving Repr, DecidableEq

/-- Outcome of `unfollowProfile`: a panic propagated out of `authApi`,
or completion with the emitted responses, the followers table after the
request, and the identity attached to the request context (the source
never attaches one). -/
inductive UnfollowOutcome
  | panicked
  | finished (responses : List HResp) (followers : List (Nat × Nat))
      (attachedIdentity : Option Nat)
deriving Repr, DecidableEq

/-- The `SELECT COUNT(*) FROM followers WHERE user_id=? AND
follower_id=?` query of src/main.go line 335: the SQL has two
placeholders but the call passes the single argument `user.ID`, so the
driver rejects the statement (`expected 2 arguments, got 1`), `Scan`
records the error on the session, and `result` keeps its zero value —
the observed count is 0 for every store. -/
def unfollowCountResult (followers : List (Nat × Nat)) (userId : Nat) : Nat :=
  0

/-- The `DELETE FROM followers ...` statement of src/main.go line 340 is
built with `Raw` but never executed: gorm's `Raw` only prepares the
statement, and no `Scan`/`Exec`/`Row` follows, so the followers table is
unchanged. -/
def unfollowDeleteResult (followers : List (Nat × Nat)) (userId : Nat) :
    List (Nat × Nat) :=
  followers

/-- `unfollowProfile` (src/main.go lines 326-344): first evaluates
`authApi(c)` (which may write a 401 body, or panic) and writes its
return value as `{"token": ...}`; then looks the subject user up by
username, runs the broken count query, writes the 402
`{"error": "Unathorized"}` body whenever the count is 0 (i.e. always),
calls `c.Abort()` — which does not stop the current handler — and
finally builds but never executes the DELETE.  Nothing ever attaches an
authenticated identity to the context. -/
def unfollowProfile (decode : String → Option SignedToken) (secret : String)
    (now : Int) (users : List User) (followers : List (Nat × Nat))
    (username : String) (authHeader : String) : UnfollowOutcome :=
  match authApi decode secret now authHeader with
  | .panicIndexOutOfRange => .panicked
  | .panicNilErr _ => .panicked
  | .returned tok errResp =>
    let user := (users.find? fun u => u.username == username).getD zeroUser
    let count := unfollowCountResult followers user.id
    let rs := (match errResp with
      | some r => [HResp.authResp r]
      | none => ([] : List HResp)) ++ [HResp.tokenJson tok]
    let rs := if count == 0 then rs ++ [.countError 402 "Unathorized"] else rs
    .finished rs (unfollowDeleteResult followers user.id) none

/-- The `Tag` table row (src/main.go lines 148-154); only `name` is read
by `getArticles`, the unread timestamp columns are omitted. -/
structure Tag where
  id : Nat
  name : String
  slug : String
deriving Repr, DecidableEq

/-- The `Article` table row (src/main.go lines 112-124), timestamps as
unix times; the `Favoriters` relation is never read by `getArticles`
and is omitted. -/
structure Article where
  id : Nat
  title : String
  body : String
  description : String
  slug : String
  userId : Nat
  user : User
  tags : List Tag
  createdAt : Int
  updatedAt : Int
deriving Repr, DecidableEq

/-- The `ArticleResource` response shape (src/main.go lines 126-137). -/
structure ArticleResource where
  title : String
  body : String
  description : String
  slug : String
  user : User
  tags : List String
  favorited : Bool
  favoritesCount : Nat
  createdAt : String
  updatedAt : String
deriving Repr, DecidableEq

/-- The resource the `getArticles` loop body builds (src/main.go lines
162-176): the inner loop appends each tag name; the literal sets only
`Title`, `Description`, `Tags`, `Body`, `User` and the formatted
timestamps, leaving `Slug`, `Favorited` and `FavoritesCount` at their
zero values.  `fmt` is `time.Time.Format(time.RFC3339)`. -/
def articleResource (fmt : Int → String) (a : Article) : ArticleResource :=
  { title := a.title
    body := a.body
    description := a.description
    slug := ""
    user := a.user
    tags := a.tags.foldl (fun acc t => acc ++ [t.name]) []
    favorited := false
    favoritesCount := 0
    createdAt := fmt a.createdAt
    updatedAt := fmt a.updatedAt }

/-- The JSON body of `getArticles` (src/main.go lines 181-184). -/
structure GetArticlesResp where
  articles : List ArticleResource
  articlesCount : Nat
deriving Repr, DecidableEq

/-- `getArticles` (src/main.go lines 156-185): loads all articles, folds
the append loop over them, and reports `len(articles)` — the length of
the loaded slice, not of the built collection — as `articlesCount`. -/
def getArticles (fmt : Int → String) (articles : List Article) : GetArticlesResp :=
  { articles := articles.foldl (fun acc a => acc ++ [articleResource fmt a]) []
    articlesCount := articles.length }

/-- A wire decoding on which every token string is undecodable (no JWT
structure at all) — e.g. what jwt-go does with the literal `garbage`. -/
def demoDecodeNone : String → Option SignedToken := fun _ => none

/-- The token `CreateToken 1 0 "sec"` produces: HS256, claims
`{authorized: true, user_id: 1, exp: 900}`, signed with `sec`. -/
def freshTok : SignedToken :=
  { alg := .HS256
    claims := { authorized := true, user_id := 1, exp := 900 }
    secretUsed := "sec" }

/-- A wire decoding under which the string `fresh` is the encoding of
`freshTok` (every other string is undecodable). -/
def demoDecodeFresh : String → Option SignedToken :=
  fun s => if s = "fresh" then some freshTok else none

/-- A well-formed token signed with HS512 instead of HS256. -/
def hs512Tok : SignedToken :=
  { alg := .HS512
    claims := { authorized := true, user_id := 7, exp := 100 }
    secretUsed := "k" }

/-- A wire decoding under which the string `alt` is the encoding of the
HS512-signed `hs512Tok`. -/
def demoDecodeHS512 : String → Option SignedToken :=
  fun s => if s = "alt" then some hs512Tok else none

/-- A bcrypt comparison that fails for every (hash, password) pair — in
particular for the zero-value user's empty stored hash, which
`bcrypt.CompareHashAndPassword` rejects as malformed. -/
def rejectVerify : String → String → Bool := fun _ _ => false

/-- Any `.returned` result of `authApi` that carries a response carries
the 401 `not authorized` body: the only response the function ever
writes comes from its failure branch. -/
theorem authApi_resp_fields (decode : String → Option SignedToken)
    (secret : String) (now : Int) (authHeader : String)
    (pt : Option ParsedToken) (resp : AuthResp)
    (h : authApi decode secret now authHeader = .returned pt (some resp)) :
    resp.status = 401 ∧ resp.message = "not authorized" := by
  unfold authApi at h
  cases hg : (goSplit ' ' authHeader)[1]? with
  | none => simp [hg] at h
  | some ts =>
    simp only [hg] at h
    split at h
    · split at h
      · simp at h
      · obtain ⟨-, h2⟩ := AuthApiResult.returned.inj h
        obtain h3 := Option.some.inj h2
        rw [← h3]
        exact ⟨rfl, rfl⟩
    · simp at h

/-- The length of a fold that appends one element per input element. -/
theorem length_foldl_append {α β : Type} (f : α → β) :
    ∀ (l : List α) (init : List β),
      (l.foldl (fun acc a => acc ++ [f a]) init).length = init.length + l.length := by
  intro l
  induction l with
  | nil => intro init; simp
  | cons a t ih =>
    intro init
    rw [List.foldl_cons, ih]
    simp
    omega

/-- C1: the claim says a login request whose password verification fails
gets a uniform unauthorized response and no token and no user resource.
Evaluating `loginUser` at such a request (unknown email over an empty
user table, so the zero-value user's empty hash fails verification)
shows the handler writes the 401 body but, lacking a `return`, falls
through, signs a token for user id 0 and writes the 200 user resource
carrying that token as well. -/
theorem loginUser_failed_verification_emits_token :
    loginUser rejectVerify "sec" 0 []
        (some { email := "a@b.c", password := "pw" }) =
      .responses
        [.loginFail 401 "wrong username or password",
         .userOk "" "" "" ""
           { alg := .HS256
             claims := { authorized := true, user_id := 0, exp := 900 }
             secretUsed := "sec" }] := by
  decide

/-- C2: the claim says validating a freshly issued token (same secret,
before the 15-minute expiry) succeeds, returns the issuing user id and
attaches no error response.  Evaluating the code: `CreateToken 1` at
time 0 yields `freshTok`; `parseWithClaims` on its encoding does succeed
— parsed token valid, user id 1, nil error — but `authApi`'s guard reads
`err == nil`, so exactly this success case enters the failure branch and
dereferences the nil error (`err.Error()`), a panic. -/
theorem authApi_panics_on_fresh_valid_token :
    CreateToken 1 0 "sec" = .ok freshTok ∧
    demoDecodeFresh "fresh" = some freshTok ∧
    (0 : Int) < freshTok.claims.exp ∧
    parseWithClaims demoDecodeFresh "fresh" "sec" 0 =
      (some { alg := .HS256, claims := freshTok.claims, valid := true }, none) ∧
    authApi demoDecodeFresh "sec" 0 "Bearer fresh" =
      .panicNilErr (some { alg := .HS256, claims := freshTok.claims, valid := true }) := by
  refine ⟨rfl, rfl, by decide, by decide, by decide⟩

/-- C3: the claim says the middleware handles every raw Authorization
header without crashing, mapping anything that is not exactly
`Bearer <token>` to a Malformed error.  Evaluating the code: the empty
header and a header with no whitespace split into fewer than two parts,
and `bearerToken[1]` is an index-out-of-range panic. -/
theorem authApi_panics_on_headers_without_two_parts :
    authApi demoDecodeNone "s" 0 "" = .panicIndexOutOfRange ∧
    authApi demoDecodeNone "s" 0 "nowhitespace" = .panicIndexOutOfRange := by
  decide

/-- C4: a request to the protected mutation route (`unfollowProfile`,
the only route that invokes `authApi`) whose bearer token fails
validation — the hypothesis says `authApi` returned with an error
response — yields exactly the 401 body (plus the token echo and the 402
count body), leaves the followers table unchanged, and attaches no
authenticated identity. -/
theorem unfollowProfile_invalid_token_no_mutation
    (decode : String → Option SignedToken) (secret : String) (now : Int)
    (users : List User) (followers : List (Nat × Nat))
    (username authHeader : String) (pt : Option ParsedToken) (resp : AuthResp)
    (hauth : authApi decode secret now authHeader = .returned pt (some resp)) :
    unfollowProfile decode secret now users followers username authHeader =
      .finished [.authResp resp, .tokenJson pt, .countError 402 "Unathorized"]
        followers none ∧
    resp.status = 401 := by
  constructor
  · simp [unfollowProfile, hauth, unfollowCountResult, unfollowDeleteResult]
  · exact (authApi_resp_fields decode secret now authHeader pt resp hauth).1

/-- Witness for C4 at the header `Bearer garbage` over a nonempty
followers table. -/
theorem unfollowProfile_invalid_token_no_mutation_witness :
    unfollowProfile demoDecodeNone "s" 0 [] [(5, 6)] "x" "Bearer garbage" =
      .finished
        [.authResp { status := 401, message := "not authorized",
                     error := errorText .malformed },
         .tokenJson none, .countError 402 "Unathorized"] [(5, 6)] none ∧
    ({ status := 401, message := "not authorized",
       error := errorText .malformed } : AuthResp).status = 401 :=
  unfollowProfile_invalid_token_no_mutation demoDecodeNone "s" 0 [] [(5, 6)]
    "x" "Bearer garbage" none
    { status := 401, message := "not authorized", error := errorText .malformed }
    (by decide)

/-- C5: the claim says the body written on a token-validation failure
never contains the raw validation exception text.  Evaluating the code
at the header `Bearer garbage`: the response's `error` field is exactly
`err.Error()`, the raw jwt-go exception text. -/
theorem authApi_response_leaks_raw_error_text :
    authApi demoDecodeNone "s" 0 "Bearer garbage" =
      .returned none
        (some { status := 401, message := "not authorized",
                error := errorText .malformed }) ∧
    errorText .malformed = "token contains an invalid number of segments" := by
  decide

/-- C6: a well-formed token whose header algorithm is not HS256 is
rejected: the key function's check fails it, the parse result is the
wrong-algorithm error, the token is never marked valid, and `authApi`
writes the 401 body rather than trusting the identity. -/
theorem authApi_wrong_algorithm_rejected
    (decode : String → Option SignedToken) (secret header s : String)
    (now : Int) (tok : SignedToken)
    (hsplit : (goSplit ' ' header)[1]? = some s)
    (hdec : decode s = some tok)
    (halg : tok.alg ≠ Alg.HS256) :
    parseWithClaims decode s secret now =
      (some { alg := tok.alg, claims := tok.claims, valid := false },
       some (.wrongAlgorithm tok.alg)) ∧
    authApi decode secret now header =
      .returned (some { alg := tok.alg, claims := tok.claims, valid := false })
        (some { status := 401, message := "not authorized",
                error := errorText (.wrongAlgorithm tok.alg) }) := by
  have hp : parseWithClaims decode s secret now =
      (some { alg := tok.alg, claims := tok.claims, valid := false },
       some (.wrongAlgorithm tok.alg)) := by
    simp [parseWithClaims, hdec, halg]
  refine ⟨hp, ?_⟩
  unfold authApi
  simp [hsplit, hp, parsedValid]

/-- Witness for C6: an HS512-signed token with a plausible payload. -/
theorem authApi_wrong_algorithm_rejected_witness :
    parseWithClaims demoDecodeHS512 "alt" "k" 0 =
      (some { alg := hs512Tok.alg, claims := hs512Tok.claims, valid := false },
       some (.wrongAlgorithm hs512Tok.alg)) ∧
    authApi demoDecodeHS512 "k" 0 "Bearer alt" =
      .returned
        (some { alg := hs512Tok.alg, claims := hs512Tok.claims, valid := false })
        (some { status := 401, message := "not authorized",
                error := errorText (.wrongAlgorithm hs512Tok.alg) }) :=
  authApi_wrong_algorithm_rejected demoDecodeHS512 "k" "Bearer alt" "alt" 0
    hs512Tok (by decide) (by decide) (by decide)

/-- C7: the claim says unfollowing a pair that does not exist is a
silent, successful no-op.  Evaluating `unfollowProfile` with an empty
followers table: the pair (viewer 1, subject 2) does not exist, yet the
handler surfaces the 402 `{"error": "Unathorized"}` body — the count
check rejects precisely when the pair is absent (and the count query's
argument mismatch makes the count 0 always), on top of the 401 from
`authApi`. -/
theorem unfollowProfile_missing_pair_surfaces_error :
    followExists 1 2 [] = false ∧
    unfollowProfile demoDecodeNone "sec" 0
        [{ id := 2, username := "bob", email := "b@c.d", password := "h",
           bio := "", image := "" }] [] "bob" "Bearer garbage" =
      .finished
        [.authResp { status := 401, message := "not authorized",
                     error := errorText .malformed },
         .tokenJson none, .countError 402 "Unathorized"] [] none := by
  decide

/-- C8: the claim says a profile rendered for an authenticated viewer
who follows the subject has `following = true`.  Evaluating the code
with user 1 following user 2: the follow pair exists, but `showProfile`
builds the `Profile` literal without ever assigning `Following` (and
the route consults no viewer at all), so the field is `false`. -/
theorem showProfile_following_false_despite_follow :
    followExists 1 2 [(2, 1)] = true ∧
    showProfile
        [{ id := 1, username := "u", email := "u@e.f", password := "h",
           bio := "", image := "" },
         { id := 2, username := "v", email := "v@e.f", password := "h2",
           bio := "subject bio", image := "subject img" }] "v" =
      { username := "v", bio := "subject bio", image := "subject img",
        following := false } := by
  decide

/-- C9: `CreateToken` builds exactly the claims `{authorized: true,
user_id: userid, exp: now + 15 minutes}` and signs them with HS256 and
the configured secret; the only fallible step is `SignedString`, which
can fail only on an unusable signing key and always succeeds for the
`[]byte` key this caller passes. -/
theorem CreateToken_builds_exact_claims (userid : Nat) (now : Int)
    (secret : String) :
    CreateToken userid now secret =
      .ok { alg := .HS256
            claims := { authorized := true, user_id := userid, exp := now + 15 * 60 }
            secretUsed := secret } :=
  rfl

/-- C10: the `articlesCount` field of the `getArticles` response equals
the number of article resources in its `articles` array, for every
store state and timestamp formatter: the loop appends exactly one
resource per loaded article, and the count reported is the length of
the loaded slice. -/
theorem getArticles_count_matches_articles_length (fmt : Int → String)
    (articles : List Article) :
    (getArticles fmt articles).articles.length =
      (getArticles fmt articles).articlesCount := by
  simp [getArticles, length_foldl_append (articleResource fmt)]
